import Mathlib

/-!
Shallow embedding of the invoice server actions (app/lib/actions.ts).

The repository contains two parallel modules with the same operation set:
a validated variant whose createInvoice returns structured field errors,
and a basic variant that raises on invalid input.  Both are embedded here.
Numbers are modelled as rationals, the ambient world (current time, whether
the executed SQL statement fails) is passed explicitly, and each action
returns the list of store / cache / log effects it issued together with how
the call ends (returned value, navigation transfer, or raised failure).
-/

/-- A raw form field value as produced by formData.get: null when the field
is absent from the submitted form, a string for ordinary inputs, or an
uploaded file object. -/
inductive FormValue where
  | null
  | str (s : String)
  | file
deriving DecidableEq, Repr

/-- Whitespace trimmed by the JavaScript Number() coercion before parsing
(the common ASCII whitespace characters). -/
def isJsSpace (c : Char) : Bool :=
  c == ' ' || c == '\t' || c == '\n' || c == '\r'

/-- Numeric value of a list of decimal digit characters, most significant
first; the empty list denotes 0. -/
def digitsToNat (cs : List Char) : Nat :=
  cs.foldl (fun n c => 10 * n + (c.toNat - 48)) 0

/-- Reads an unsigned decimal numeral (integer digits, an optional decimal
point, fractional digits) the way the JavaScript Number() builtin does; any
other shape yields NaN, modelled as none. -/
def parseDecimal (cs : List Char) : Option ℚ :=
  let intPart := cs.takeWhile Char.isDigit
  let rest := cs.dropWhile Char.isDigit
  match rest with
  | [] => if intPart.isEmpty then none else some (digitsToNat intPart)
  | '.' :: frac =>
      if frac.all Char.isDigit && !(intPart.isEmpty && frac.isEmpty) then
        some ((digitsToNat intPart : ℚ) + (digitsToNat frac : ℚ) / (10 : ℚ) ^ frac.length)
      else none
  | _ => none

/-- Models the JavaScript Number(string) coercion on its decimal fragment:
surrounding whitespace is trimmed, the empty string coerces to 0, an
optional sign precedes a decimal numeral; a string that Number() maps to
NaN is modelled as none.  (Hexadecimal, exponent and Infinity forms are
outside the fragment exercised by form input.) -/
def jsNumber (s : String) : Option ℚ :=
  let cs := ((s.data.dropWhile isJsSpace).reverse.dropWhile isJsSpace).reverse
  match cs with
  | [] => some 0
  | '+' :: rest => parseDecimal rest
  | '-' :: rest => (parseDecimal rest).map (fun q => -q)
  | _ => parseDecimal cs

/-- Models the Number(x) conversion that z.coerce.number() applies to a raw
form value: Number(null) is 0, a string is read as a decimal numeral, and a
file object converts to NaN (none). -/
def coerceNumber : FormValue → Option ℚ
  | .null => some 0
  | .str s => jsNumber s
  | .file => none

/-- The raw create/update payload assembled from the three formData.get
calls (customerId, amount, status). -/
structure RawPayload where
  customerId : FormValue
  amount : FormValue
  status : FormValue
deriving DecidableEq, Repr

/-- Models the strict schema field z.string with invalid_type_error
"Please select a customer.": any string passes, the empty string included;
null or a file fails the type check with the custom message. -/
def validateCustomerId : FormValue → Except (List String) String
  | .str s => .ok s
  | _ => .error ["Please select a customer."]

/-- Default zod message for a value that z.coerce.number() coerces to NaN
(no custom invalid_type_error is configured for amount in the source). -/
def nanMessage : String := "Expected number, received nan"

/-- Models the strict schema field z.coerce.number().gt(0, message ...):
the raw value is coerced via Number(); NaN fails with the default type
message, and a number not strictly greater than 0 fails with the custom
.gt message. -/
def validateAmount (v : FormValue) : Except (List String) ℚ :=
  match coerceNumber v with
  | none => .error [nanMessage]
  | some n =>
      if 0 < n then .ok n
      else .error ["Please enter an amount greater than $0."]

/-- Default zod message for a string outside the enum options, carrying the
received value (the quotes zod places around the option names are elided
here). -/
def invalidEnumMessage (received : String) : String :=
  "Invalid enum value. Expected pending | paid, received " ++ received

/-- Models the strict schema field z.enum(pending, paid) with an
invalid_type_error: a wrong-typed input (null or a file) fails with the
custom invalid_type_error message, while a string outside the options fails
with the invalid_enum_value issue, whose message is the zod default — the
invalid_type_error parameter does not apply to that issue code. -/
def validateStatus : FormValue → Except (List String) String
  | .str s =>
      if s = "pending" ∨ s = "paid" then .ok s
      else .error [invalidEnumMessage s]
  | _ => .error ["Please select an invoice status."]

/-- The field-keyed error lists of a failed validation, as produced by
flatten().fieldErrors: a key is present exactly when that field failed. -/
structure FieldErrors where
  customerId : Option (List String)
  amount : Option (List String)
  status : Option (List String)
deriving DecidableEq, Repr

/-- The typed data of a successful CreateInvoice / UpdateInvoice
validation. -/
structure InvoiceFields where
  customerId : String
  amount : ℚ
  status : String
deriving DecidableEq, Repr

/-- The error list of one field of a validation outcome, none on success. -/
def errOf {α : Type} : Except (List String) α → Option (List String)
  | .ok _ => none
  | .error l => some l

/-- Models CreateInvoice.safeParse (equally UpdateInvoice.safeParse):
FormSchema with id and date omitted, applied to the raw payload.  Success
carries the typed fields; failure carries the flattened field errors. -/
def safeParse (p : RawPayload) : Except FieldErrors InvoiceFields :=
  match validateCustomerId p.customerId, validateAmount p.amount, validateStatus p.status with
  | .ok c, .ok a, .ok s => .ok ⟨c, a, s⟩
  | rc, ra, rs => .error ⟨errOf rc, errOf ra, errOf rs⟩

/-- The State shape returned by the validated createInvoice. -/
structure State where
  errors : Option FieldErrors
  message : Option String
deriving DecidableEq, Repr

/-- One observable store / cache / log effect issued by an action. -/
inductive Effect where
  | insert (customerId : String) (amount : ℚ) (status : String) (date : String)
  | update (id : String) (customerId : String) (amount : ℚ) (status : String)
  | delete (id : String)
  | revalidate (path : String)
  | logError (context : String)
deriving DecidableEq, Repr

/-- A raised failure: the ZodError thrown by the raising parse, an
underlying store failure propagating unmodified, or a new Error(msg). -/
inductive Err where
  | zodError (fieldErrors : FieldErrors)
  | storeError
  | error (msg : String)
deriving DecidableEq, Repr

/-- How an action call ends: returning a State value, returning without a
value, transferring control via redirect (a non-local exit), or raising. -/
inductive ActionResult where
  | state (s : State)
  | done
  | navigate (path : String)
  | raised (e : Err)
deriving DecidableEq, Repr

/-- The fixed logical path of the invoice listing view, used for cache
revalidation and for the redirect target. -/
def invoicesPath : String := "/dashboard/invoices"

/-- Models new Date().toISOString().split(T)[0]: the prefix of the ISO
timestamp before the first T, that is its YYYY-MM-DD date part. -/
def toISODate (isoNow : String) : String :=
  String.mk (isoNow.data.takeWhile (fun c => c != 'T'))

/-- Models the validated createInvoice(prevState, formData) server action.
The ambient world is explicit: isoNow is the current time as an ISO
timestamp and dbFails tells whether the INSERT statement fails.  The result
pairs the issued effects with how the call ends. -/
def createInvoice (prevState : State) (p : RawPayload) (isoNow : String)
    (dbFails : Bool) : List Effect × ActionResult :=
  match safeParse p with
  | .error fe =>
      ([], .state ⟨some fe, some "Missing Fields. Failed to Create Invoice."⟩)
  | .ok f =>
      let amountInCents := f.amount * 100
      let date := toISODate isoNow
      if dbFails then
        ([.insert f.customerId amountInCents f.status date],
          .state ⟨none, some "Database Error: Failed to Create Invoice."⟩)
      else
        ([.insert f.customerId amountInCents f.status date,
          .revalidate invoicesPath],
          .navigate invoicesPath)

/-- Models the validated updateInvoice(id, formData): the raising
UpdateInvoice.parse throws the ZodError on invalid input; a store failure
during the UPDATE is logged and re-raised as a generic failure. -/
def updateInvoice (id : String) (p : RawPayload) (dbFails : Bool) :
    List Effect × ActionResult :=
  match safeParse p with
  | .error fe => ([], .raised (.zodError fe))
  | .ok f =>
      let amountInCents := f.amount * 100
      if dbFails then
        ([.update id f.customerId amountInCents f.status,
          .logError "Error updating invoice:"],
          .raised (.error "Failed to update invoice"))
      else
        ([.update id f.customerId amountInCents f.status,
          .revalidate invoicesPath],
          .navigate invoicesPath)

/-- Models deleteInvoice(id): one DELETE, then cache revalidation; no
navigation and no error handling, so a store failure propagates to the
caller unmodified. -/
def deleteInvoice (id : String) (dbFails : Bool) : List Effect × ActionResult :=
  if dbFails then ([.delete id], .raised .storeError)
  else ([.delete id, .revalidate invoicesPath], .done)

namespace BasicVariant

/-- Models the basic schema field z.string() with no custom message; the
messages stand for the zod defaults for the received type. -/
def validateCustomerId : FormValue → Except (List String) String
  | .str s => .ok s
  | .null => .error ["Expected string, received null"]
  | .file => .error ["Expected string, received object"]

/-- Models the basic schema field z.coerce.number(): any number passes —
there is no .gt(0) bound in this variant. -/
def validateAmount (v : FormValue) : Except (List String) ℚ :=
  match coerceNumber v with
  | none => .error [nanMessage]
  | some n => .ok n

/-- Models the basic schema field z.enum(pending, paid) with no custom
message; the wrong-type messages stand for the zod defaults. -/
def validateStatus : FormValue → Except (List String) String
  | .str s =>
      if s = "pending" ∨ s = "paid" then .ok s
      else .error [invalidEnumMessage s]
  | .null => .error ["Expected pending | paid, received null"]
  | .file => .error ["Expected pending | paid, received object"]

/-- Models the data produced by the basic CreateInvoice.parse /
UpdateInvoice.parse; an error value is the ZodError the raising parse
throws. -/
def parseFields (p : RawPayload) : Except FieldErrors InvoiceFields :=
  match validateCustomerId p.customerId, validateAmount p.amount, validateStatus p.status with
  | .ok c, .ok a, .ok s => .ok ⟨c, a, s⟩
  | rc, ra, rs => .error ⟨errOf rc, errOf ra, errOf rs⟩

/-- Models the basic createInvoice(formData): the raising parse throws on
invalid input; a store failure during the INSERT is logged and re-raised as
a generic failure. -/
def createInvoice (p : RawPayload) (isoNow : String) (dbFails : Bool) :
    List Effect × ActionResult :=
  match parseFields p with
  | .error fe => ([], .raised (.zodError fe))
  | .ok f =>
      let amountInCents := f.amount * 100
      let date := toISODate isoNow
      if dbFails then
        ([.insert f.customerId amountInCents f.status date,
          .logError "Error inserting invoice:"],
          .raised (.error "Failed to create invoice"))
      else
        ([.insert f.customerId amountInCents f.status date,
          .revalidate invoicesPath],
          .navigate invoicesPath)

/-- Models the basic updateInvoice(id, formData); same body as the
validated variant except that parsing uses the basic schema. -/
def updateInvoice (id : String) (p : RawPayload) (dbFails : Bool) :
    List Effect × ActionResult :=
  match parseFields p with
  | .error fe => ([], .raised (.zodError fe))
  | .ok f =>
      let amountInCents := f.amount * 100
      if dbFails then
        ([.update id f.customerId amountInCents f.status,
          .logError "Error updating invoice:"],
          .raised (.error "Failed to update invoice"))
      else
        ([.update id f.customerId amountInCents f.status,
          .revalidate invoicesPath],
          .navigate invoicesPath)

/-- Models the basic deleteInvoice(id), textually identical to the
validated variant. -/
def deleteInvoice (id : String) (dbFails : Bool) : List Effect × ActionResult :=
  if dbFails then ([.delete id], .raised .storeError)
  else ([.delete id, .revalidate invoicesPath], .done)

end BasicVariant

/-! ## Characterization lemmas for the validation layer -/

lemma validateCustomerId_ok_iff (v : FormValue) (c : String) :
    validateCustomerId v = .ok c ↔ v = FormValue.str c := by
  cases v <;> simp [validateCustomerId]

lemma validateAmount_ok_iff (v : FormValue) (a : ℚ) :
    validateAmount v = .ok a ↔ coerceNumber v = some a ∧ 0 < a := by
  cases h : coerceNumber v with
  | none => simp [validateAmount, h]
  | some n =>
      by_cases hn : 0 < n
      · simp [validateAmount, h, hn]
        rintro rfl
        exact hn
      · simp [validateAmount, h, hn]
        rintro rfl
        exact le_of_not_lt hn

lemma validateStatus_ok_iff (v : FormValue) (s : String) :
    validateStatus v = .ok s ↔ v = FormValue.str s ∧ (s = "pending" ∨ s = "paid") := by
  cases v with
  | str t =>
      by_cases ht : t = "pending" ∨ t = "paid"
      · simp [validateStatus, ht]
        rintro rfl
        exact ht
      · simp [validateStatus, ht]
        rintro rfl
        exact not_or.mp ht
  | null => simp [validateStatus]
  | file => simp [validateStatus]

lemma safeParse_ok_iff (p : RawPayload) (f : InvoiceFields) :
    safeParse p = .ok f ↔
      validateCustomerId p.customerId = .ok f.customerId ∧
      validateAmount p.amount = .ok f.amount ∧
      validateStatus p.status = .ok f.status := by
  obtain ⟨fc, fa, fs⟩ := f
  cases hc : validateCustomerId p.customerId <;>
    cases ha : validateAmount p.amount <;>
      cases hs : validateStatus p.status <;>
        simp [safeParse, hc, ha, hs, and_assoc]

lemma safeParse_error_fields (p : RawPayload) (fe : FieldErrors)
    (h : safeParse p = .error fe) :
    fe = ⟨errOf (validateCustomerId p.customerId),
          errOf (validateAmount p.amount),
          errOf (validateStatus p.status)⟩ := by
  cases hc : validateCustomerId p.customerId <;>
    cases ha : validateAmount p.amount <;>
      cases hs : validateStatus p.status <;>
        simp [safeParse, hc, ha, hs, errOf] at h ⊢ <;>
          simp [← h]

lemma BasicVariant.parseFields_ok_of_safeParse (p : RawPayload)
    (f : InvoiceFields) (h : safeParse p = .ok f) :
    BasicVariant.parseFields p = .ok f := by
  rw [safeParse_ok_iff] at h
  obtain ⟨hc, ha, hs⟩ := h
  rw [validateCustomerId_ok_iff] at hc
  rw [validateAmount_ok_iff] at ha
  rw [validateStatus_ok_iff] at hs
  obtain ⟨hca, _⟩ := ha
  obtain ⟨hv, hok⟩ := hs
  unfold BasicVariant.parseFields
  rw [hc, hv]
  simp [BasicVariant.validateCustomerId, BasicVariant.validateAmount, hca,
    BasicVariant.validateStatus, hok]

lemma takeWhile_ne_append (l r : List Char)
    (h : ∀ c ∈ l, (c != 'T') = true) :
    (l ++ 'T' :: r).takeWhile (fun c => c != 'T') = l := by
  induction l with
  | nil => simp [List.takeWhile_cons]
  | cons a as ih =>
      have ha := h a (List.mem_cons_self a as)
      simp only [List.cons_append, List.takeWhile_cons, ha, if_true]
      exact congrArg (a :: ·) (ih (fun c hc => h c (List.mem_cons_of_mem a hc)))

lemma toISODate_of_iso (d rest : String)
    (h : ∀ c ∈ d.data, (c != 'T') = true) :
    toISODate (d ++ "T" ++ rest) = d := by
  unfold toISODate
  have hd : (d ++ "T" ++ rest).data = d.data ++ 'T' :: rest.data := by
    simp [String.data_append]
  rw [hd, takeWhile_ne_append d.data rest.data h]

lemma validateAmount_nonpos (v : FormValue) (n : ℚ)
    (hn : coerceNumber v = some n) (hle : n ≤ 0) :
    validateAmount v = .error ["Please enter an amount greater than $0."] := by
  simp [validateAmount, hn, not_lt.mpr hle]

lemma validateStatus_invalid_enum (s : String)
    (hnotin : ¬(s = "pending" ∨ s = "paid")) :
    validateStatus (FormValue.str s) = .error [invalidEnumMessage s] := by
  simp [validateStatus, hnotin]

lemma createInvoice_ok (prev : State) (p : RawPayload) (isoNow : String)
    (f : InvoiceFields) (h : safeParse p = .ok f) :
    createInvoice prev p isoNow false =
      ([Effect.insert f.customerId (f.amount * 100) f.status (toISODate isoNow),
        Effect.revalidate invoicesPath], .navigate invoicesPath) := by
  simp [createInvoice, h]

lemma safeParse_c1_1999 :
    safeParse ⟨FormValue.str "c1", FormValue.str "19.99", FormValue.str "paid"⟩ =
      .ok ⟨"c1", (1999 : ℚ) / 100, "paid"⟩ := by
  have hjs : coerceNumber (FormValue.str "19.99") = some ((1999 : ℚ) / 100) := by
    have h : coerceNumber (FormValue.str "19.99") =
        some ((19 : ℕ) + ((99 : ℕ) : ℚ) / (10 : ℚ) ^ 2) := rfl
    rw [h]
    norm_num
  rw [safeParse_ok_iff]
  refine ⟨rfl, ?_, rfl⟩
  rw [validateAmount_ok_iff]
  exact ⟨hjs, by norm_num⟩

/-! ## Claim theorems -/

/-- C1 counterexample: the claim holds that an empty customerId fails
validation with the message "Please select a customer." and causes no store
write; but z.string() accepts the empty string (there is no minimum-length
rule in the source), so the validated createInvoice accepts the payload and
issues the INSERT. -/
theorem createInvoice_empty_customerId_accepted :
    createInvoice ⟨none, none⟩
        ⟨FormValue.str "", FormValue.str "5", FormValue.str "paid"⟩
        "2025-06-19T00:00:00.000Z" false =
      ([Effect.insert "" 500 "paid" "2025-06-19",
        Effect.revalidate invoicesPath],
        ActionResult.navigate invoicesPath) := by
  rw [createInvoice_ok ⟨none, none⟩
    ⟨FormValue.str "", FormValue.str "5", FormValue.str "paid"⟩
    "2025-06-19T00:00:00.000Z" ⟨"", 5, "paid"⟩ rfl]
  have hdate : toISODate "2025-06-19T00:00:00.000Z" = "2025-06-19" := rfl
  rw [hdate]
  norm_num

/-- C1 (amended): for every create payload failing validation, the
validated createInvoice performs no store write and returns a structured
State whose message is "Missing Fields. Failed to Create Invoice." and
whose errors mapping carries, per failing field, its message: "Please
select a customer." when customerId is absent or not a string (an empty
string passes), "Please enter an amount greater than $0." when amount
coerces to a number not strictly greater than 0, "Please select an invoice
status." when status is absent or not a string, and the default
invalid-enum message when status is a string outside the enum. -/
theorem createInvoice_validation_failure (prev : State) (p : RawPayload)
    (isoNow : String) (dbFails : Bool) (fe : FieldErrors)
    (h : safeParse p = .error fe) :
    createInvoice prev p isoNow dbFails =
      ([], .state ⟨some fe, some "Missing Fields. Failed to Create Invoice."⟩) ∧
    (p.customerId = FormValue.null ∨ p.customerId = FormValue.file →
      fe.customerId = some ["Please select a customer."]) ∧
    (∀ n : ℚ, coerceNumber p.amount = some n → n ≤ 0 →
      fe.amount = some ["Please enter an amount greater than $0."]) ∧
    (p.status = FormValue.null ∨ p.status = FormValue.file →
      fe.status = some ["Please select an invoice status."]) ∧
    (∀ s : String, p.status = FormValue.str s → ¬(s = "pending" ∨ s = "paid") →
      fe.status = some [invalidEnumMessage s]) := by
  have hfe := safeParse_error_fields p fe h
  subst hfe
  refine ⟨by simp [createInvoice, h], ?_, ?_, ?_, ?_⟩
  · rintro (hc | hc) <;> rw [hc] <;> rfl
  · intro n hn hle
    show errOf (validateAmount p.amount) = _
    rw [validateAmount_nonpos p.amount n hn hle]
    rfl
  · rintro (hs | hs) <;> rw [hs] <;> rfl
  · intro s hs hnotin
    show errOf (validateStatus p.status) = _
    rw [hs, validateStatus_invalid_enum s hnotin]
    rfl

/-- C1 witness: a payload with absent customerId, amount "0" and status
"overdue" returns exactly the structured error State and no effects. -/
theorem createInvoice_validation_failure_witness :
    createInvoice ⟨none, none⟩
        ⟨FormValue.null, FormValue.str "0", FormValue.str "overdue"⟩
        "2025-06-19T00:00:00.000Z" false =
      ([], .state ⟨some ⟨some ["Please select a customer."],
          some ["Please enter an amount greater than $0."],
          some [invalidEnumMessage "overdue"]⟩,
        some "Missing Fields. Failed to Create Invoice."⟩) :=
  (createInvoice_validation_failure ⟨none, none⟩
    ⟨FormValue.null, FormValue.str "0", FormValue.str "overdue"⟩
    "2025-06-19T00:00:00.000Z" false
    ⟨some ["Please select a customer."],
      some ["Please enter an amount greater than $0."],
      some [invalidEnumMessage "overdue"]⟩ rfl).1

/-- C2: for every valid create payload, the validated createInvoice issues
exactly one INSERT carrying the raw product amount * 100 (no rounding is
applied — amounts are exact rationals here) and the current date truncated
to its YYYY-MM-DD part, then revalidates the listing cache and navigates. -/
theorem createInvoice_valid_insert (prev : State) (p : RawPayload)
    (f : InvoiceFields) (d rest : String) (h : safeParse p = .ok f)
    (hd : ∀ c ∈ d.data, (c != 'T') = true) :
    createInvoice prev p (d ++ "T" ++ rest) false =
      ([Effect.insert f.customerId (f.amount * 100) f.status d,
        Effect.revalidate invoicesPath],
        .navigate invoicesPath) ∧
    coerceNumber p.amount = some f.amount ∧ 0 < f.amount := by
  refine ⟨?_, ?_⟩
  · simp [createInvoice, h, toISODate_of_iso d rest hd]
  · have hok := (safeParse_ok_iff p f).mp h
    exact (validateAmount_ok_iff _ _).mp hok.2.1

/-- C2 witness: the valid payload (customerId "c1", amount "19.99", status
"paid") inserts amount 19.99 * 100 = 1999 with date "2025-06-19". -/
theorem createInvoice_valid_insert_witness :
    createInvoice ⟨none, none⟩
        ⟨FormValue.str "c1", FormValue.str "19.99", FormValue.str "paid"⟩
        ("2025-06-19" ++ "T" ++ "10:00:00.000Z") false =
      ([Effect.insert "c1" ((1999 : ℚ) / 100 * 100) "paid" "2025-06-19",
        Effect.revalidate invoicesPath],
        .navigate invoicesPath) :=
  (createInvoice_valid_insert ⟨none, none⟩
    ⟨FormValue.str "c1", FormValue.str "19.99", FormValue.str "paid"⟩
    ⟨"c1", (1999 : ℚ) / 100, "paid"⟩ "2025-06-19" "10:00:00.000Z"
    safeParse_c1_1999 (by decide)).1

/-- C3: when the INSERT fails during a validated create of a valid payload,
the function returns { message: "Database Error: Failed to Create
Invoice." } with no errors key, raises nothing, does not revalidate the
cache and does not navigate. -/
theorem createInvoice_db_failure (prev : State) (p : RawPayload)
    (isoNow : String) (f : InvoiceFields) (h : safeParse p = .ok f) :
    createInvoice prev p isoNow true =
      ([Effect.insert f.customerId (f.amount * 100) f.status (toISODate isoNow)],
        .state ⟨none, some "Database Error: Failed to Create Invoice."⟩) ∧
    (∀ path, Effect.revalidate path ∉ (createInvoice prev p isoNow true).1) ∧
    (∀ e, (createInvoice prev p isoNow true).2 ≠ .raised e) ∧
    (∀ path, (createInvoice prev p isoNow true).2 ≠ .navigate path) := by
  refine ⟨?_, ?_, ?_, ?_⟩ <;> simp [createInvoice, h]

/-- C3 witness: a failing INSERT for the valid payload (customerId "c1",
amount "5", status "pending") returns only the database-error message. -/
theorem createInvoice_db_failure_witness :
    createInvoice ⟨none, none⟩
        ⟨FormValue.str "c1", FormValue.str "5", FormValue.str "pending"⟩
        "2025-06-19T00:00:00.000Z" true =
      ([Effect.insert "c1" ((5 : ℚ) * 100) "pending" "2025-06-19"],
        .state ⟨none, some "Database Error: Failed to Create Invoice."⟩) :=
  (createInvoice_db_failure ⟨none, none⟩
    ⟨FormValue.str "c1", FormValue.str "5", FormValue.str "pending"⟩
    "2025-06-19T00:00:00.000Z" ⟨"c1", 5, "pending"⟩ rfl).1

/-- C4: on every payload failing validation, the validated updateInvoice
raises the parse failure (the ZodError), while createInvoice of the same
variant returns a structured error State on that same input; neither
touches the store. -/
theorem updateInvoice_raises_create_returns (id : String) (prev : State)
    (p : RawPayload) (isoNow : String) (dbFails : Bool) (fe : FieldErrors)
    (h : safeParse p = .error fe) :
    updateInvoice id p dbFails = ([], .raised (.zodError fe)) ∧
    createInvoice prev p isoNow dbFails =
      ([], .state ⟨some fe, some "Missing Fields. Failed to Create Invoice."⟩) :=
  ⟨by simp [updateInvoice, h], by simp [createInvoice, h]⟩

/-- C4 witness: with all three fields absent, updateInvoice raises the
ZodError that createInvoice returns as structured state. -/
theorem updateInvoice_raises_create_returns_witness :
    updateInvoice "i1" ⟨FormValue.null, FormValue.null, FormValue.null⟩ false =
      ([], .raised (.zodError ⟨some ["Please select a customer."],
        some ["Please enter an amount greater than $0."],
        some ["Please select an invoice status."]⟩)) :=
  (updateInvoice_raises_create_returns "i1" ⟨none, none⟩
    ⟨FormValue.null, FormValue.null, FormValue.null⟩
    "2025-06-19T00:00:00.000Z" false
    ⟨some ["Please select a customer."],
      some ["Please enter an amount greater than $0."],
      some ["Please select an invoice status."]⟩ rfl).1

/-- C5: for every valid payload and id, the validated updateInvoice issues
exactly one UPDATE of (customer_id, amount = input * 100, status) for that
id; on success it revalidates the cache and navigates to the listing; on a
store failure it logs the error and raises the generic "Failed to update
invoice" failure instead of returning a value. -/
theorem updateInvoice_valid_behavior (id : String) (p : RawPayload)
    (f : InvoiceFields) (h : safeParse p = .ok f) :
    updateInvoice id p false =
      ([Effect.update id f.customerId (f.amount * 100) f.status,
        Effect.revalidate invoicesPath],
        .navigate invoicesPath) ∧
    updateInvoice id p true =
      ([Effect.update id f.customerId (f.amount * 100) f.status,
        Effect.logError "Error updating invoice:"],
        .raised (.error "Failed to update invoice")) ∧
    coerceNumber p.amount = some f.amount := by
  refine ⟨by simp [updateInvoice, h], by simp [updateInvoice, h], ?_⟩
  exact ((validateAmount_ok_iff _ _).mp ((safeParse_ok_iff p f).mp h).2.1).1

/-- C5 witness: updating invoice "inv1" with the valid payload (customerId
"c1", amount "5", status "pending") issues the single expected UPDATE. -/
theorem updateInvoice_valid_behavior_witness :
    updateInvoice "inv1"
        ⟨FormValue.str "c1", FormValue.str "5", FormValue.str "pending"⟩ false =
      ([Effect.update "inv1" "c1" ((5 : ℚ) * 100) "pending",
        Effect.revalidate invoicesPath],
        .navigate invoicesPath) :=
  (updateInvoice_valid_behavior "inv1"
    ⟨FormValue.str "c1", FormValue.str "5", FormValue.str "pending"⟩
    ⟨"c1", 5, "pending"⟩ rfl).1

/-- C6: every payload accepted by the strict create/update validation has a
customerId that was a string, an amount that coerced to a rational strictly
greater than 0, and a status that was exactly the string "pending" or
"paid"; no other amount or status values are accepted. -/
theorem safeParse_accepted_constraints (p : RawPayload) (f : InvoiceFields)
    (h : safeParse p = .ok f) :
    p.customerId = FormValue.str f.customerId ∧
    coerceNumber p.amount = some f.amount ∧ 0 < f.amount ∧
    p.status = FormValue.str f.status ∧
    (f.status = "pending" ∨ f.status = "paid") := by
  rw [safeParse_ok_iff] at h
  obtain ⟨hc, ha, hs⟩ := h
  rw [validateCustomerId_ok_iff] at hc
  rw [validateAmount_ok_iff] at ha
  rw [validateStatus_ok_iff] at hs
  exact ⟨hc, ha.1, ha.2, hs.1, hs.2⟩

/-- C6 witness: the accepted payload (customerId "c1", amount "19.99",
status "paid") satisfies all the stated constraints. -/
theorem safeParse_accepted_constraints_witness :
    FormValue.str "c1" = FormValue.str "c1" ∧
    coerceNumber (FormValue.str "19.99") = some ((1999 : ℚ) / 100) ∧
    (0 : ℚ) < (1999 : ℚ) / 100 ∧
    FormValue.str "paid" = FormValue.str "paid" ∧
    ("paid" = "pending" ∨ "paid" = "paid") :=
  safeParse_accepted_constraints
    ⟨FormValue.str "c1", FormValue.str "19.99", FormValue.str "paid"⟩
    ⟨"c1", (1999 : ℚ) / 100, "paid"⟩ safeParse_c1_1999

/-- C7: deleteInvoice, identical in both variants, issues exactly one
DELETE for the given id and revalidates the cache on success, performs no
navigation, and applies no error handling — a store failure propagates to
the caller unmodified. -/
theorem deleteInvoice_behavior (id : String) :
    deleteInvoice id false =
      ([Effect.delete id, Effect.revalidate invoicesPath], .done) ∧
    deleteInvoice id true = ([Effect.delete id], .raised Err.storeError) ∧
    BasicVariant.deleteInvoice = deleteInvoice :=
  ⟨rfl, rfl, rfl⟩

/-- C8 counterexample: on the payload (customerId "c1", amount "0", status
"paid") the two updateInvoice variants disagree — the basic schema has no
.gt(0) rule on amount, so the basic variant issues the UPDATE with amount 0
and navigates, while the validated variant raises its parse failure. -/
theorem basic_update_accepts_zero_amount :
    BasicVariant.updateInvoice "i1"
        ⟨FormValue.str "c1", FormValue.str "0", FormValue.str "paid"⟩ false =
      ([Effect.update "i1" "c1" 0 "paid", Effect.revalidate invoicesPath],
        ActionResult.navigate invoicesPath) ∧
    updateInvoice "i1"
        ⟨FormValue.str "c1", FormValue.str "0", FormValue.str "paid"⟩ false =
      ([], .raised (.zodError
        ⟨none, some ["Please enter an amount greater than $0."], none⟩)) := by
  refine ⟨?_, rfl⟩
  have hb : BasicVariant.parseFields
      ⟨FormValue.str "c1", FormValue.str "0", FormValue.str "paid"⟩ =
      .ok ⟨"c1", 0, "paid"⟩ := rfl
  simp [BasicVariant.updateInvoice, hb]

/-- C8 (amended): on every payload the strict schema accepts, the basic
variant updateInvoice is extensionally identical to the validated one —
same UPDATE with the same bound values, same cache invalidation and
navigation on success, same logged re-raise on store failure; the variants
do not raise on the same inputs, since the basic schema accepts amounts not
strictly greater than 0 that the strict schema rejects. -/
theorem basic_updateInvoice_agrees_on_valid (id : String) (p : RawPayload)
    (dbFails : Bool) (f : InvoiceFields) (h : safeParse p = .ok f) :
    BasicVariant.updateInvoice id p dbFails = updateInvoice id p dbFails := by
  have hb := BasicVariant.parseFields_ok_of_safeParse p f h
  simp [BasicVariant.updateInvoice, updateInvoice, h, hb]

/-- C8 witness: both variants agree on the valid payload (customerId "c1",
amount "5", status "paid"). -/
theorem basic_updateInvoice_agrees_on_valid_witness :
    BasicVariant.updateInvoice "i1"
        ⟨FormValue.str "c1", FormValue.str "5", FormValue.str "paid"⟩ false =
      updateInvoice "i1"
        ⟨FormValue.str "c1", FormValue.str "5", FormValue.str "paid"⟩ false :=
  basic_updateInvoice_agrees_on_valid "i1"
    ⟨FormValue.str "c1", FormValue.str "5", FormValue.str "paid"⟩ false
    ⟨"c1", 5, "paid"⟩ (by rfl)

/-- C9: the basic-variant createInvoice raises its parse failure (a
ZodError) and performs no store write whenever the amount field is a string
that does not coerce to a number. -/
theorem basic_createInvoice_nan_raises (p : RawPayload) (isoNow : String)
    (dbFails : Bool) (s : String) (hs : p.amount = FormValue.str s)
    (hn : jsNumber s = none) :
    ∃ fe : FieldErrors,
      BasicVariant.createInvoice p isoNow dbFails =
        ([], .raised (.zodError fe)) := by
  have ha : BasicVariant.validateAmount p.amount = .error [nanMessage] := by
    simp [BasicVariant.validateAmount, coerceNumber, hs, hn]
  refine ⟨⟨errOf (BasicVariant.validateCustomerId p.customerId),
    errOf (BasicVariant.validateAmount p.amount),
    errOf (BasicVariant.validateStatus p.status)⟩, ?_⟩
  cases hc : BasicVariant.validateCustomerId p.customerId <;>
    cases hst : BasicVariant.validateStatus p.status <;>
      simp [BasicVariant.createInvoice, BasicVariant.parseFields, hc, ha, hst, errOf]

/-- C9 witness: amount "abc" makes the basic createInvoice raise with no
effects issued. -/
theorem basic_createInvoice_nan_raises_witness :
    ∃ fe : FieldErrors,
      BasicVariant.createInvoice
        ⟨FormValue.str "c1", FormValue.str "abc", FormValue.str "paid"⟩
        "2025-06-19T00:00:00.000Z" false = ([], .raised (.zodError fe)) :=
  basic_createInvoice_nan_raises
    ⟨FormValue.str "c1", FormValue.str "abc", FormValue.str "paid"⟩
    "2025-06-19T00:00:00.000Z" false "abc" rfl (by rfl)

/-- C10: in the basic variant, an absent or empty-string amount field
coerces to the number 0 rather than failing, so createInvoice succeeds and
inserts a row with amount 0 in minor units instead of raising. -/
theorem basic_createInvoice_zero_amount_insert (c st isoNow : String)
    (amt : FormValue) (hst : st = "pending" ∨ st = "paid")
    (hamt : amt = FormValue.null ∨ amt = FormValue.str "") :
    BasicVariant.createInvoice ⟨FormValue.str c, amt, FormValue.str st⟩
        isoNow false =
      ([Effect.insert c 0 st (toISODate isoNow),
        Effect.revalidate invoicesPath],
        .navigate invoicesPath) := by
  have ha : coerceNumber amt = some 0 := by
    rcases hamt with rfl | rfl <;> rfl
  rcases hst with rfl | rfl <;>
    simp [BasicVariant.createInvoice, BasicVariant.parseFields,
      BasicVariant.validateCustomerId, BasicVariant.validateAmount, ha,
      BasicVariant.validateStatus]

/-- C10 witness: the empty-string amount with customerId "c1" and status
"pending" inserts amount 0. -/
theorem basic_createInvoice_zero_amount_insert_witness :
    BasicVariant.createInvoice
        ⟨FormValue.str "c1", FormValue.str "", FormValue.str "pending"⟩
        "2025-06-19T00:00:00.000Z" false =
      ([Effect.insert "c1" 0 "pending" "2025-06-19",
        Effect.revalidate invoicesPath],
        .navigate invoicesPath) :=
  basic_createInvoice_zero_amount_insert "c1" "pending"
    "2025-06-19T00:00:00.000Z" (FormValue.str "") (Or.inl rfl) (Or.inr rfl)
